import Mathlib

/-
Shallow embedding of the multiplayer game client (src/game.js).

JavaScript numbers are modelled by ℚ (every arithmetic operation the
client performs — addition, subtraction, halving, min/max — is exact on
the rationals it actually computes with).  JavaScript objects used as
string-keyed maps are modelled either as functions String → Option V
(pure key lookup/update) or as association lists List (String × V)
where key iteration order matters (Object.keys in loadAvatarImages).
-/

/-- Facing direction of a player (player.facing in game.js). -/
inductive Direction where
  | north
  | south
  | east
  | west
deriving DecidableEq, Repr

/-- A player entry as carried in server messages and stored in
this.players.  animationFrame is optional: the code reads it as
player.animationFrame || 0. -/
structure Player where
  id : String
  username : String
  x : ℚ
  y : ℚ
  facing : Direction
  avatar : String
  animationFrame : Option Nat

/-- Per-direction frame source lists of an avatar definition
(avatar.frames in game.js): only north, south and east are ever stored. -/
structure AvatarFrames where
  north : List String
  south : List String
  east : List String

/-- An avatar definition as stored in this.avatars. -/
structure AvatarDef where
  name : String
  frames : AvatarFrames

/-- A cache entry of this.loadedAvatars: per direction, the sparse array
of loaded drawable handles, written independently at each index as a
load completes (undefined slots are none).  A drawable handle is
identified by the frame source string the Image was created from. -/
structure LoadedAvatar where
  north : Nat → Option String
  south : Nat → Option String
  east : Nat → Option String

/-- The cache entry right after loadAvatarImages creates it:
loadedAvatars[name] = \x7b\x7d with an empty array per direction — every
index reads as undefined. -/
def emptyLoadedAvatar : LoadedAvatar :=
  { north := fun _ => none, south := fun _ => none, east := fun _ => none }

/-- One asynchronous image load issued by loadAvatarImages:
new Image() with img.src = src, destined for slot
loadedAvatars[avatarName][direction][index]. -/
structure LoadRequest where
  avatarName : String
  direction : Direction
  index : Nat
  src : String
deriving DecidableEq, Repr

/-- The mutable state of the GameClient object (the fields the claims
are about).  canvas/map dimensions are instance fields read by
updateViewport and drawPlayer. -/
structure ClientState where
  myPlayerId : Option String
  players : String → Option Player
  avatars : List (String × AvatarDef)
  loadedAvatars : String → Option LoadedAvatar
  viewport : ℚ × ℚ
  canvasWidth : ℚ
  canvasHeight : ℚ
  mapWidth : ℚ
  mapHeight : ℚ
  avatarSize : ℚ

/-- Key lookup in a JS object modelled as an association list. -/
def lookupKey {α : Type} : List (String × α) → String → Option α
  | [], _ => none
  | (k, v) :: rest, key => if k = key then some v else lookupKey rest key

/-- Key insert-or-overwrite in a JS object modelled as an association
list: an existing key keeps its position, a new key is appended
(JS property-creation order). -/
def setKey {α : Type} : List (String × α) → String → α → List (String × α)
  | [], key, v => [(key, v)]
  | (k, w) :: rest, key, v =>
      if k = key then (key, v) :: rest else (k, w) :: setKey rest key v

/-- GameClient.updateViewport (game.js lines 294–308): no-op unless the
local player id is set and present in players; otherwise centre the
viewport on the local player and clamp each axis to the map via
Math.max(0, Math.min(v, mapDimension − canvasDimension)). -/
def updateViewport (s : ClientState) : ClientState :=
  match s.myPlayerId with
  | none => s
  | some pid =>
    match s.players pid with
    | none => s
    | some myPlayer =>
      let centerX := s.canvasWidth / 2
      let centerY := s.canvasHeight / 2
      let vx := myPlayer.x - centerX
      let vy := myPlayer.y - centerY
      let vx := max 0 (min vx (s.mapWidth - s.canvasWidth))
      let vy := max 0 (min vy (s.mapHeight - s.canvasHeight))
      { s with viewport := (vx, vy) }

/-- this.maxReconnectAttempts (game.js line 21). -/
def maxReconnectAttempts : Nat := 5

/-- GameClient.attemptReconnect (game.js lines 201–211) acting on
this.reconnectAttempts: if the counter is below the maximum it is
incremented and a reconnect is scheduled after 2000 × (new counter)
milliseconds; otherwise nothing further is scheduled.  Returns the new
counter and the scheduled delay (none when giving up). -/
def attemptReconnect (reconnectAttempts : Nat) : Nat × Option Nat :=
  if reconnectAttempts < maxReconnectAttempts then
    (reconnectAttempts + 1, some (2000 * (reconnectAttempts + 1)))
  else
    (reconnectAttempts, none)

/-- The ws.onopen handler's effect on this.reconnectAttempts
(game.js line 174): every successful open resets the counter to 0. -/
def onOpenResetAttempts (_reconnectAttempts : Nat) : Nat := 0

/-- The reconnect counter after k consecutive failed attempts starting
from a fresh counter (each failure fires onclose → attemptReconnect). -/
def afterFailures : Nat → Nat
  | 0 => 0
  | k + 1 => (attemptReconnect (afterFailures k)).1

/-- An inbound server message, one variant per action tag handled by
GameClient.handleServerMessage (game.js lines 230–270). -/
inductive ServerMessage where
  | joinGame (success : Bool) (playerId : String)
      (players : String → Option Player) (avatars : List (String × AvatarDef))
      (error : String)
  | playerJoined (player : Player) (avatar : AvatarDef)
  | playersMoved (players : String → Option Player)
  | playerLeft (playerId : String)
  | unknown (action : String)

/-- The per-frame load requests issued for one direction of one avatar:
avatar.frames[direction].forEach((frameData, index) => new Image …). -/
def frameRequests (name : String) (d : Direction) (frames : List String) :
    List LoadRequest :=
  frames.enum.map fun p => { avatarName := name, direction := d, index := p.1, src := p.2 }

/-- All load requests issued for a freshly seen avatar, in the order the
code issues them: directions north, south, east, frames in index order. -/
def avatarRequests (name : String) (a : AvatarDef) : List LoadRequest :=
  frameRequests name Direction.north a.frames.north ++
    frameRequests name Direction.south a.frames.south ++
    frameRequests name Direction.east a.frames.east

/-- GameClient.loadAvatarImages (game.js lines 272–292): iterate the
keys of this.avatars in order; for a name with no loadedAvatars entry
yet, create the (empty) cache entry and issue the per-frame loads; for a
name that already has an entry — even an empty, mid-flight one — do
nothing.  Returns the updated cache and the list of issued loads. -/
def loadAvatarImages :
    List (String × AvatarDef) → (String → Option LoadedAvatar) →
    (String → Option LoadedAvatar) × List LoadRequest
  | [], loaded => (loaded, [])
  | (name, adef) :: rest, loaded =>
    if (loaded name).isSome then
      loadAvatarImages rest loaded
    else
      let loaded' := fun n => if n = name then some emptyLoadedAvatar else loaded n
      let r := loadAvatarImages rest loaded'
      (r.1, avatarRequests name adef ++ r.2)

/-- Write one loaded handle into its direction slot of a cache entry
(the img.onload callback body at game.js line 284). -/
def setFrame (e : LoadedAvatar) (d : Direction) (i : Nat) (img : String) :
    LoadedAvatar :=
  match d with
  | Direction.north => { e with north := fun j => if j = i then some img else e.north j }
  | Direction.south => { e with south := fun j => if j = i then some img else e.south j }
  | Direction.east => { e with east := fun j => if j = i then some img else e.east j }
  | Direction.west => e

/-- Completion of one asynchronous load:
this.loadedAvatars[avatarName][direction][index] = img. -/
def completeLoad (loaded : String → Option LoadedAvatar) (r : LoadRequest) :
    String → Option LoadedAvatar :=
  fun n =>
    if n = r.avatarName then
      (loaded n).map fun e => setFrame e r.direction r.index r.src
    else loaded n

/-- A batch of load completions applied in arrival order. -/
def completeLoads (loaded : String → Option LoadedAvatar)
    (rs : List LoadRequest) : String → Option LoadedAvatar :=
  rs.foldl completeLoad loaded

/-- Object.assign(this.players, message.players) (game.js line 257):
every key carried by the message overwrites the stored entry; every
other key keeps its stored value. -/
def assignPlayers (players moved : String → Option Player) :
    String → Option Player :=
  fun pid =>
    match moved pid with
    | some p => some p
    | none => players pid

/-- GameClient.handleServerMessage (game.js lines 230–270): dispatch on
the action tag and mutate the client state, recomputing the viewport
and loading avatar images exactly where the code does. -/
def handleServerMessage (msg : ServerMessage) (s : ClientState) : ClientState :=
  match msg with
  | ServerMessage.joinGame success playerId players avatars _error =>
    if success then
      let s1 := { s with myPlayerId := some playerId,
                         players := players,
                         avatars := avatars }
      let s2 := { s1 with loadedAvatars := (loadAvatarImages s1.avatars s1.loadedAvatars).1 }
      updateViewport s2
    else s
  | ServerMessage.playerJoined player avatar =>
    let s1 := { s with players := fun pid => if pid = player.id then some player else s.players pid,
                       avatars := setKey s.avatars avatar.name avatar }
    { s1 with loadedAvatars := (loadAvatarImages s1.avatars s1.loadedAvatars).1 }
  | ServerMessage.playersMoved moved =>
    updateViewport { s with players := assignPlayers s.players moved }
  | ServerMessage.playerLeft playerId =>
    { s with players := fun pid => if pid = playerId then none else s.players pid }
  | ServerMessage.unknown _ => s

/-- An outbound client→server message relevant to movement
(GameClient.sendMovementCommand hands these to sendMessage). -/
inductive OutMessage where
  | move (direction : String)
  | stop
deriving DecidableEq, Repr

/-- The input-handling state: this.keysPressed (truthiness of each key
code; a deleted key reads as false) and this.isMoving. -/
structure InputState where
  keysPressed : String → Bool
  isMoving : Bool

/-- A browser key event delivered to handleKeyDown / handleKeyUp. -/
inductive KeyEvent where
  | down (code : String)
  | up (code : String)

/-- The directions array built by sendMovementCommand (game.js lines
86–91), in the code's push order. -/
def directionsOf (keys : String → Bool) : List String :=
  (if keys "ArrowUp" then ["up"] else []) ++
    (if keys "ArrowDown" then ["down"] else []) ++
    (if keys "ArrowLeft" then ["left"] else []) ++
    (if keys "ArrowRight" then ["right"] else [])

/-- Whether at least one direction key is currently held. -/
def dirHeld (keys : String → Bool) : Bool :=
  keys "ArrowUp" || keys "ArrowDown" || keys "ArrowLeft" || keys "ArrowRight"

/-- GameClient.sendMovementCommand (game.js lines 84–112): with no
direction key held, send stop (once) if isMoving and clear it; otherwise
send move with the first direction and set isMoving.  Returns the new
state and the messages handed to sendMessage. -/
def sendMovementCommand (st : InputState) : InputState × List OutMessage :=
  match directionsOf st.keysPressed with
  | [] =>
    if st.isMoving then ({ st with isMoving := false }, [OutMessage.stop])
    else (st, [])
  | direction :: _ =>
    ({ st with isMoving := true }, [OutMessage.move direction])

/-- GameClient.handleKeyDown / handleKeyUp (game.js lines 63–82): record
or delete the key, then run sendMovementCommand. -/
def handleKeyEvent (st : InputState) (e : KeyEvent) : InputState × List OutMessage :=
  match e with
  | KeyEvent.down code =>
    sendMovementCommand
      { st with keysPressed := fun c => if c = code then true else st.keysPressed c }
  | KeyEvent.up code =>
    sendMovementCommand
      { st with keysPressed := fun c => if c = code then false else st.keysPressed c }

/-- The input state at startup: no key pressed, not moving. -/
def initInputState : InputState :=
  { keysPressed := fun _ => false, isMoving := false }

/-- The input state reached after a sequence of key events. -/
def runKeys : InputState → List KeyEvent → InputState
  | st, [] => st
  | st, e :: es => runKeys (handleKeyEvent st e).1 es

/-- An input state reachable from startup by some key-event sequence. -/
def ReachableInput (st : InputState) : Prop :=
  ∃ es, runKeys initInputState es = st

/-- One sprite blit issued by drawPlayer: the drawImage destination
arguments, and whether ctx.scale(-1, 1) was in force (west mirroring). -/
structure SpriteDraw where
  frame : String
  x : ℚ
  y : ℚ
  w : ℚ
  h : ℚ
  mirrored : Bool
deriving DecidableEq, Repr

/-- The username label drawn after the sprite (strokeText + fillText at
the same centred position). -/
structure LabelDraw where
  text : String
  x : ℚ
  y : ℚ
deriving DecidableEq, Repr

/-- The screen rectangle a SpriteDraw covers once the active transform
is applied: under ctx.scale(-1, 1) a destination x-range [x, x+w] lands
on screen x-range [−x−w, −x]; otherwise it is the rectangle itself. -/
def effectiveRect (d : SpriteDraw) : ℚ × ℚ × ℚ × ℚ :=
  if d.mirrored then (-d.x - d.w, d.y, d.w, d.h) else (d.x, d.y, d.w, d.h)

/-- Frame selection in drawPlayer (game.js lines 341–347): west reuses
the east frame list; every other direction reads its own list. -/
def selectFrame (avatar : LoadedAvatar) (direction : Direction)
    (frameIndex : Nat) : Option String :=
  match direction with
  | Direction.west => avatar.east frameIndex
  | Direction.north => avatar.north frameIndex
  | Direction.south => avatar.south frameIndex
  | Direction.east => avatar.east frameIndex

/-- GameClient.drawPlayer (game.js lines 333–386): none when the player
produces no draw call at all (missing avatar definition or cache entry,
missing frame, or culled); otherwise the sprite blit followed by the
username label. -/
def drawPlayer (s : ClientState) (player : Player) :
    Option (SpriteDraw × LabelDraw) :=
  if (lookupKey s.avatars player.avatar).isNone ∨
      (s.loadedAvatars player.avatar).isNone then none
  else
    match s.loadedAvatars player.avatar with
    | none => none
    | some avatar =>
      let direction := player.facing
      let frameIndex := player.animationFrame.getD 0
      match selectFrame avatar direction frameIndex with
      | none => none
      | some frame =>
        let screenX := player.x - s.viewport.1
        let screenY := player.y - s.viewport.2
        if screenX < -s.avatarSize ∨ screenX > s.canvasWidth + s.avatarSize ∨
            screenY < -s.avatarSize ∨ screenY > s.canvasHeight + s.avatarSize then
          none
        else
          let sprite : SpriteDraw :=
            if direction = Direction.west then
              { frame := frame, x := -screenX - s.avatarSize / 2,
                y := screenY - s.avatarSize / 2,
                w := s.avatarSize, h := s.avatarSize, mirrored := true }
            else
              { frame := frame, x := screenX - s.avatarSize / 2,
                y := screenY - s.avatarSize / 2,
                w := s.avatarSize, h := s.avatarSize, mirrored := false }
          let labelY := screenY - s.avatarSize / 2 - 5
          some (sprite, { text := player.username, x := screenX, y := labelY })

/-- Sample player used in concrete witnesses. -/
def samplePlayerA : Player :=
  { id := "a", username := "Alice", x := 10, y := 20
    facing := Direction.east, avatar := "adventurer", animationFrame := some 1 }

/-- Sample avatar definition used in concrete witnesses. -/
def sampleAvatarDef : AvatarDef :=
  { name := "adventurer"
    frames := { north := ["n0.png"], south := ["s0.png"]
                east := ["e0.png", "e1.png"] } }

/-- A second avatar definition under the same name, as a later
join_game or player_joined message could deliver. -/
def sampleAvatarDefV2 : AvatarDef :=
  { name := "adventurer"
    frames := { north := ["n0v2.png"], south := ["s0v2.png"]
                east := ["e0v2.png"] } }

/-- A cache entry holding the fully loaded frames of sampleAvatarDef. -/
def sampleLoadedEntry : LoadedAvatar :=
  { north := fun i => if i = 0 then some "n0.png" else none
    south := fun i => if i = 0 then some "s0.png" else none
    east := fun i => if i = 0 then some "e0.png" else
      if i = 1 then some "e1.png" else none }

/-- A loaded-avatar cache already holding the adventurer entry. -/
def sampleLoaded : String → Option LoadedAvatar :=
  fun n => if n = "adventurer" then some sampleLoadedEntry else none

/-- Sample west-facing player used in the mirroring witness. -/
def westPlayer : Player :=
  { id := "p2", username := "Wes", x := 100, y := 100
    facing := Direction.west, avatar := "adventurer", animationFrame := some 1 }

/-- Sample south-facing player sitting exactly one avatar-size left of
the left screen edge (screen x = −avatarSize with viewport at 0). -/
def boundaryPlayer : Player :=
  { id := "p3", username := "Sue", x := -64, y := 100
    facing := Direction.south, avatar := "adventurer", animationFrame := none }

/-- The input state after pressing ArrowUp from startup. -/
def c7State : InputState :=
  runKeys initInputState [KeyEvent.down "ArrowUp"]

/-- C1 sample state: local player p1 at (500, 500) on an 800×600 canvas
over the 2048×2048 map. -/
def c1State : ClientState :=
  { myPlayerId := some "p1"
    players := fun pid =>
      if pid = "p1" then
        some { id := "p1", username := "Tim", x := 500, y := 500
               facing := Direction.south, avatar := "adventurer"
               animationFrame := none }
      else none
    avatars := []
    loadedAvatars := fun _ => none
    viewport := (0, 0)
    canvasWidth := 800
    canvasHeight := 600
    mapWidth := 2048
    mapHeight := 2048
    avatarSize := 64 }

/-- Sample state with a fully loaded adventurer avatar, used in the
rendering witnesses. -/
def drawState : ClientState :=
  { myPlayerId := some "p1"
    players := fun _ => none
    avatars := [("adventurer", sampleAvatarDef)]
    loadedAvatars := sampleLoaded
    viewport := (0, 0)
    canvasWidth := 800
    canvasHeight := 600
    mapWidth := 2048
    mapHeight := 2048
    avatarSize := 64 }

/-- C1: after updateViewport with the local player present and
mapDimension ≥ canvasDimension on each axis, the viewport origin lies in
[0, mapDimension − canvasDimension] on each axis, and equals
position − canvasDimension/2 on an axis whenever that value is already
in range. -/
theorem updateViewport_clamped (s : ClientState) (pid : String) (p : Player)
    (hid : s.myPlayerId = some pid) (hp : s.players pid = some p)
    (hw : s.canvasWidth ≤ s.mapWidth) (hh : s.canvasHeight ≤ s.mapHeight) :
    (0 ≤ (updateViewport s).viewport.1 ∧
      (updateViewport s).viewport.1 ≤ s.mapWidth - s.canvasWidth ∧
      (0 ≤ p.x - s.canvasWidth / 2 →
        p.x - s.canvasWidth / 2 ≤ s.mapWidth - s.canvasWidth →
        (updateViewport s).viewport.1 = p.x - s.canvasWidth / 2)) ∧
    (0 ≤ (updateViewport s).viewport.2 ∧
      (updateViewport s).viewport.2 ≤ s.mapHeight - s.canvasHeight ∧
      (0 ≤ p.y - s.canvasHeight / 2 →
        p.y - s.canvasHeight / 2 ≤ s.mapHeight - s.canvasHeight →
        (updateViewport s).viewport.2 = p.y - s.canvasHeight / 2)) := by
  have hvp : (updateViewport s).viewport =
      (max 0 (min (p.x - s.canvasWidth / 2) (s.mapWidth - s.canvasWidth)),
       max 0 (min (p.y - s.canvasHeight / 2) (s.mapHeight - s.canvasHeight))) := by
    simp only [updateViewport, hid, hp]
  rw [hvp]
  refine ⟨⟨le_max_left 0 _, max_le (by linarith) (min_le_right _ _), ?_⟩,
          ⟨le_max_left 0 _, max_le (by linarith) (min_le_right _ _), ?_⟩⟩
  · intro h0 h1
    simp only
    rw [min_eq_left h1, max_eq_right h0]
  · intro h0 h1
    simp only
    rw [min_eq_left h1, max_eq_right h0]

/-- C1 witness: the clamp theorem evaluated at the concrete sample
state (player at (500,500), 800×600 canvas, 2048×2048 map). -/
theorem updateViewport_clamped_witness :
    c1State.myPlayerId = some "p1" ∧
    (0 ≤ (updateViewport c1State).viewport.1 ∧
      (updateViewport c1State).viewport.1 ≤ c1State.mapWidth - c1State.canvasWidth ∧
      (0 ≤ (500 : ℚ) - c1State.canvasWidth / 2 →
        (500 : ℚ) - c1State.canvasWidth / 2 ≤ c1State.mapWidth - c1State.canvasWidth →
        (updateViewport c1State).viewport.1 = (500 : ℚ) - c1State.canvasWidth / 2)) ∧
    (0 ≤ (updateViewport c1State).viewport.2 ∧
      (updateViewport c1State).viewport.2 ≤ c1State.mapHeight - c1State.canvasHeight ∧
      (0 ≤ (500 : ℚ) - c1State.canvasHeight / 2 →
        (500 : ℚ) - c1State.canvasHeight / 2 ≤ c1State.mapHeight - c1State.canvasHeight →
        (updateViewport c1State).viewport.2 = (500 : ℚ) - c1State.canvasHeight / 2)) :=
  ⟨rfl, updateViewport_clamped c1State "p1"
    { id := "p1", username := "Tim", x := 500, y := 500
      facing := Direction.south, avatar := "adventurer", animationFrame := none }
    rfl rfl (by norm_num [c1State]) (by norm_num [c1State])⟩

/-- updateViewport only writes the viewport field: myPlayerId is kept. -/
theorem updateViewport_myPlayerId (s : ClientState) :
    (updateViewport s).myPlayerId = s.myPlayerId := by
  unfold updateViewport
  split
  · rfl
  · split
    · rfl
    · rfl

/-- updateViewport only writes the viewport field: players is kept. -/
theorem updateViewport_players (s : ClientState) :
    (updateViewport s).players = s.players := by
  unfold updateViewport
  split
  · rfl
  · split
    · rfl
    · rfl

/-- C2: from a fresh counter, each of the maxReconnectAttempts (5)
scheduled attempts numbered k+1 is delayed by 2000 × (k+1) ms; once the
counter has reached maxReconnectAttempts after 5 consecutive failures,
a further failure schedules nothing; and every successful open resets
the counter to 0. -/
theorem attemptReconnect_policy :
    (∀ k, k < maxReconnectAttempts →
      attemptReconnect (afterFailures k) = (k + 1, some (2000 * (k + 1)))) ∧
    attemptReconnect (afterFailures maxReconnectAttempts) =
      (maxReconnectAttempts, none) ∧
    (∀ n, onOpenResetAttempts n = 0) :=
  ⟨by decide, by decide, fun _ => rfl⟩

/-- C2 witness: the third failure schedules attempt 3 after 6000 ms. -/
theorem attemptReconnect_policy_witness :
    2 < maxReconnectAttempts ∧
    attemptReconnect (afterFailures 2) = (2 + 1, some (2000 * (2 + 1))) :=
  ⟨by decide, attemptReconnect_policy.1 2 (by decide)⟩

/-- C3: handling players_moved overwrites exactly the entries whose ids
the message carries and leaves every unmentioned player's entry (all of
its fields) at its prior value. -/
theorem playersMoved_merge (s : ClientState) (moved : String → Option Player)
    (pid : String) :
    (∀ p, moved pid = some p →
      (handleServerMessage (ServerMessage.playersMoved moved) s).players pid
        = some p) ∧
    (moved pid = none →
      (handleServerMessage (ServerMessage.playersMoved moved) s).players pid
        = s.players pid) := by
  constructor
  · intro p h
    simp [handleServerMessage, updateViewport_players, assignPlayers, h]
  · intro h
    simp [handleServerMessage, updateViewport_players, assignPlayers, h]

/-- C3 witness: a players_moved carrying only id a overwrites a and
leaves the unmentioned local player p1 untouched. -/
theorem playersMoved_merge_witness :
    (fun pid => if pid = "a" then some samplePlayerA else none) "a"
      = some samplePlayerA ∧
    (handleServerMessage
        (ServerMessage.playersMoved
          (fun pid => if pid = "a" then some samplePlayerA else none))
        c1State).players "a" = some samplePlayerA :=
  ⟨rfl, (playersMoved_merge c1State
    (fun pid => if pid = "a" then some samplePlayerA else none) "a").1
    samplePlayerA rfl⟩

/-- C8: a player_left for an id absent from players leaves the entire
client state unchanged (the handler is total, so nothing is raised);
for a present id it removes exactly that entry and touches nothing
else. -/
theorem playerLeft_remove (s : ClientState) (pid : String) :
    (s.players pid = none →
      handleServerMessage (ServerMessage.playerLeft pid) s = s) ∧
    (∀ p, s.players pid = some p →
      (handleServerMessage (ServerMessage.playerLeft pid) s).players pid
          = none ∧
      (∀ q, q ≠ pid →
        (handleServerMessage (ServerMessage.playerLeft pid) s).players q
          = s.players q) ∧
      (handleServerMessage (ServerMessage.playerLeft pid) s).myPlayerId
          = s.myPlayerId ∧
      (handleServerMessage (ServerMessage.playerLeft pid) s).avatars
          = s.avatars ∧
      (handleServerMessage (ServerMessage.playerLeft pid) s).loadedAvatars
          = s.loadedAvatars ∧
      (handleServerMessage (ServerMessage.playerLeft pid) s).viewport
          = s.viewport) := by
  constructor
  · intro h
    dsimp only [handleServerMessage]
    have hfun : (fun q => if q = pid then none else s.players q) = s.players := by
      funext q
      by_cases hq : q = pid
      · rw [hq, if_pos rfl, h]
      · rw [if_neg hq]
    rw [hfun]
  · intro p _hp
    refine ⟨by simp [handleServerMessage], fun q hq => by simp [handleServerMessage, hq],
      rfl, rfl, rfl, rfl⟩

/-- C8 witness: removing the unknown id zz from the sample state is a
no-op on the whole state. -/
theorem playerLeft_remove_witness :
    c1State.players "zz" = none ∧
    handleServerMessage (ServerMessage.playerLeft "zz") c1State = c1State :=
  ⟨rfl, (playerLeft_remove c1State "zz").1 rfl⟩

/-- C9: no handled message ever clears myPlayerId back to none: once it
is some id, it stays some id after handling any inbound message (a
successful join_game overwrites it with the message's — still present —
player id; every other tag, including failed join results and
unrecognized tags, leaves it alone). -/
theorem myPlayerId_never_cleared (msg : ServerMessage) (s : ClientState)
    (h : s.myPlayerId.isSome = true) :
    ((handleServerMessage msg s).myPlayerId).isSome = true := by
  cases msg with
  | joinGame success pid players avatars err =>
    cases success with
    | false => simpa [handleServerMessage] using h
    | true => simp [handleServerMessage, updateViewport_myPlayerId]
  | playerJoined p a => simpa [handleServerMessage] using h
  | playersMoved m => simpa [handleServerMessage, updateViewport_myPlayerId] using h
  | playerLeft pid => simpa [handleServerMessage] using h
  | unknown a => simpa [handleServerMessage] using h

/-- C9 witness: after a player_left the sample state still has its local
player id. -/
theorem myPlayerId_never_cleared_witness :
    c1State.myPlayerId.isSome = true ∧
    ((handleServerMessage (ServerMessage.playerLeft "p1") c1State).myPlayerId).isSome
      = true :=
  ⟨rfl, myPlayerId_never_cleared (ServerMessage.playerLeft "p1") c1State rfl⟩

/-- A cache entry's presence survives loadAvatarImages. -/
theorem loadAvatarImages_mono (l : List (String × AvatarDef))
    (loaded : String → Option LoadedAvatar) (n : String)
    (h : (loaded n).isSome = true) :
    (((loadAvatarImages l loaded).1) n).isSome = true := by
  induction l generalizing loaded with
  | nil => exact h
  | cons kv rest ih =>
    obtain ⟨k, d⟩ := kv
    dsimp only [loadAvatarImages]
    by_cases hk : (loaded k).isSome = true
    · rw [if_pos hk]
      exact ih loaded h
    · rw [if_neg hk]
      apply ih
      by_cases hn : n = k
      · simp [hn]
      · simpa [hn] using h

/-- After loadAvatarImages, every avatar name in the map has a cache
entry. -/
theorem loadAvatarImages_covers (l : List (String × AvatarDef))
    (loaded : String → Option LoadedAvatar) :
    ∀ kv ∈ l, (((loadAvatarImages l loaded).1) kv.1).isSome = true := by
  induction l generalizing loaded with
  | nil => intro kv hkv; cases hkv
  | cons kv0 rest ih =>
    intro kv hkv
    obtain ⟨k, d⟩ := kv0
    dsimp only [loadAvatarImages]
    rcases List.mem_cons.mp hkv with hhead | htail
    · subst hhead
      by_cases hk : (loaded k).isSome = true
      · rw [if_pos hk]
        exact loadAvatarImages_mono rest loaded k hk
      · rw [if_neg hk]
        apply loadAvatarImages_mono
        simp
    · by_cases hk : (loaded k).isSome = true
      · rw [if_pos hk]
        exact ih loaded kv htail
      · rw [if_neg hk]
        exact ih _ kv htail

/-- When every avatar name already has a cache entry, loadAvatarImages
changes nothing and issues no load. -/
theorem loadAvatarImages_noop (l : List (String × AvatarDef))
    (loaded : String → Option LoadedAvatar)
    (h : ∀ kv ∈ l, ((loaded kv.1).isSome = true)) :
    loadAvatarImages l loaded = (loaded, []) := by
  induction l with
  | nil => rfl
  | cons kv0 rest ih =>
    obtain ⟨k, d⟩ := kv0
    dsimp only [loadAvatarImages]
    rw [if_pos (h (k, d) (List.mem_cons_self _ _))]
    exact ih fun kv hkv => h kv (List.mem_cons_of_mem _ hkv)

/-- Completing a load never creates or removes a cache entry. -/
theorem completeLoad_isSome (loaded : String → Option LoadedAvatar)
    (r : LoadRequest) (n : String) :
    ((completeLoad loaded r) n).isSome = (loaded n).isSome := by
  unfold completeLoad
  by_cases hn : n = r.avatarName
  · simp [hn]
  · simp [hn]

/-- Completing any batch of loads never creates or removes a cache
entry. -/
theorem completeLoads_isSome (rs : List LoadRequest)
    (loaded : String → Option LoadedAvatar) (n : String) :
    ((completeLoads loaded rs) n).isSome = (loaded n).isSome := by
  induction rs generalizing loaded with
  | nil => rfl
  | cons r rest ih =>
    unfold completeLoads at ih ⊢
    rw [List.foldl_cons, ih, completeLoad_isSome]

/-- C4: a second loadAvatarImages call over the same avatars map — after
any batch of completions from the first call's loads, including none at
all (mid-flight) — issues no load request and returns the cache
untouched; so the per-frame loads of each avatar are issued exactly
once, by the first call that saw its name. -/
theorem loadAvatarImages_idempotent (l : List (String × AvatarDef))
    (loaded : String → Option LoadedAvatar) (cs : List LoadRequest) :
    loadAvatarImages l (completeLoads (loadAvatarImages l loaded).1 cs) =
      (completeLoads (loadAvatarImages l loaded).1 cs, []) := by
  apply loadAvatarImages_noop
  intro kv hkv
  rw [completeLoads_isSome]
  exact loadAvatarImages_covers l loaded kv hkv

/-- Every request issued for a freshly seen avatar carries that
avatar's name. -/
theorem avatarRequests_name (k : String) (a : AvatarDef) :
    ∀ r ∈ avatarRequests k a, r.avatarName = k := by
  intro r hr
  unfold avatarRequests frameRequests at hr
  rcases List.mem_append.mp hr with h1 | h2
  · rcases List.mem_append.mp h1 with h3 | h4
    · obtain ⟨p, _, hp⟩ := List.mem_map.mp h3
      rw [← hp]
    · obtain ⟨p, _, hp⟩ := List.mem_map.mp h4
      rw [← hp]
  · obtain ⟨p, _, hp⟩ := List.mem_map.mp h2
    rw [← hp]

/-- C10: once a name has a cache entry, loadAvatarImages over any
avatars map — in particular one whose entry under that name has been
overwritten by a newer AvatarDefinition — keeps the old entry unchanged
and issues no load for that name: the cache is keyed by name only, so
the old frames keep being drawn. -/
theorem loadAvatarImages_stale_cache (l : List (String × AvatarDef))
    (loaded : String → Option LoadedAvatar) (name : String)
    (e : LoadedAvatar) (h : loaded name = some e) :
    (loadAvatarImages l loaded).1 name = some e ∧
    ∀ r ∈ (loadAvatarImages l loaded).2, r.avatarName ≠ name := by
  induction l generalizing loaded with
  | nil => exact ⟨h, by intro r hr; cases hr⟩
  | cons kv0 rest ih =>
    obtain ⟨k, d⟩ := kv0
    dsimp only [loadAvatarImages]
    by_cases hk : (loaded k).isSome = true
    · rw [if_pos hk]
      exact ih loaded h
    · rw [if_neg hk]
      have hkn : k ≠ name := by
        intro hkeq
        rw [hkeq, h] at hk
        simp at hk
      have h' : (fun n => if n = k then some emptyLoadedAvatar else loaded n) name
          = some e := by
        show (if name = k then some emptyLoadedAvatar else loaded name) = some e
        rw [if_neg (Ne.symm hkn)]
        exact h
      obtain ⟨h1, h2⟩ :=
        ih (fun n => if n = k then some emptyLoadedAvatar else loaded n) h'
      refine ⟨h1, ?_⟩
      intro r hr
      rcases List.mem_append.mp hr with hra | hrb
      · rw [avatarRequests_name k d r hra]
        exact hkn
      · exact h2 r hrb

/-- C10 witness: a new adventurer definition arriving while the old
entry is cached triggers no load and keeps the old handles. -/
theorem loadAvatarImages_stale_cache_witness :
    sampleLoaded "adventurer" = some sampleLoadedEntry ∧
    ((loadAvatarImages [("adventurer", sampleAvatarDefV2)] sampleLoaded).1
        "adventurer" = some sampleLoadedEntry ∧
      ∀ r ∈ (loadAvatarImages [("adventurer", sampleAvatarDefV2)] sampleLoaded).2,
        r.avatarName ≠ "adventurer") :=
  ⟨rfl, loadAvatarImages_stale_cache [("adventurer", sampleAvatarDefV2)]
    sampleLoaded "adventurer" sampleLoadedEntry rfl⟩

/-- C5: a west-facing player with animation frame k whose avatar's east
frame k is loaded and who is not culled is rendered from the east frame
at index k with the horizontal mirror active, and the mirrored blit
covers exactly the screen rectangle the unmirrored draw would cover
(centred on the player's screen position); the stored caches hold no
west frames at all — west resolves through east. -/
theorem drawPlayer_west_mirror (s : ClientState) (player : Player)
    (av : LoadedAvatar) (img : String)
    (hfacing : player.facing = Direction.west)
    (hdef : (lookupKey s.avatars player.avatar).isSome = true)
    (hav : s.loadedAvatars player.avatar = some av)
    (hframe : av.east (player.animationFrame.getD 0) = some img)
    (hx1 : -s.avatarSize ≤ player.x - s.viewport.1)
    (hx2 : player.x - s.viewport.1 ≤ s.canvasWidth + s.avatarSize)
    (hy1 : -s.avatarSize ≤ player.y - s.viewport.2)
    (hy2 : player.y - s.viewport.2 ≤ s.canvasHeight + s.avatarSize) :
    ∃ sp lb, drawPlayer s player = some (sp, lb) ∧
      sp.frame = img ∧ sp.mirrored = true ∧
      effectiveRect sp =
        (player.x - s.viewport.1 - s.avatarSize / 2,
         player.y - s.viewport.2 - s.avatarSize / 2,
         s.avatarSize, s.avatarSize) := by
  obtain ⟨adef, hadef⟩ := Option.isSome_iff_exists.mp hdef
  have nx1 : ¬(player.x - s.viewport.1 < -s.avatarSize) := not_lt.mpr hx1
  have nx2 : ¬(player.x - s.viewport.1 > s.canvasWidth + s.avatarSize) :=
    not_lt.mpr hx2
  have ny1 : ¬(player.y - s.viewport.2 < -s.avatarSize) := not_lt.mpr hy1
  have ny2 : ¬(player.y - s.viewport.2 > s.canvasHeight + s.avatarSize) :=
    not_lt.mpr hy2
  refine ⟨{ frame := img, x := -(player.x - s.viewport.1) - s.avatarSize / 2,
            y := player.y - s.viewport.2 - s.avatarSize / 2,
            w := s.avatarSize, h := s.avatarSize, mirrored := true },
          { text := player.username, x := player.x - s.viewport.1,
            y := player.y - s.viewport.2 - s.avatarSize / 2 - 5 },
          ?_, rfl, rfl, ?_⟩
  · simp [drawPlayer, hadef, hav, hfacing, selectFrame, hframe,
      nx1, nx2, ny1, ny2]
  · simp only [effectiveRect, if_pos]
    refine Prod.ext ?_ (Prod.ext ?_ rfl)
    · ring
    · rfl

/-- C5 witness: the west-facing sample player at (100, 100) with frame
1 is drawn mirrored from east frame e1.png over the same rectangle the
unmirrored draw would cover. -/
theorem drawPlayer_west_mirror_witness :
    westPlayer.facing = Direction.west ∧
    (∃ sp lb, drawPlayer drawState westPlayer = some (sp, lb) ∧
      sp.frame = "e1.png" ∧ sp.mirrored = true ∧
      effectiveRect sp =
        (westPlayer.x - drawState.viewport.1 - drawState.avatarSize / 2,
         westPlayer.y - drawState.viewport.2 - drawState.avatarSize / 2,
         drawState.avatarSize, drawState.avatarSize)) :=
  ⟨rfl, drawPlayer_west_mirror drawState westPlayer sampleLoadedEntry "e1.png"
    rfl rfl rfl rfl
    (by norm_num [drawState, westPlayer])
    (by norm_num [drawState, westPlayer])
    (by norm_num [drawState, westPlayer])
    (by norm_num [drawState, westPlayer])⟩

/-- C6: for a player whose facing-direction frame is loaded, a screen
position strictly more than one avatar-size outside any surface edge
yields no draw call at all (drawPlayer returns before either the sprite
blit or the username label), while a screen position within one
avatar-size of every edge — including exactly one avatar-size outside an
edge — is drawn. -/
theorem drawPlayer_cull (s : ClientState) (player : Player)
    (av : LoadedAvatar) (img : String)
    (hdef : (lookupKey s.avatars player.avatar).isSome = true)
    (hav : s.loadedAvatars player.avatar = some av)
    (hframe : selectFrame av player.facing (player.animationFrame.getD 0)
      = some img) :
    ((player.x - s.viewport.1 < -s.avatarSize ∨
        player.x - s.viewport.1 > s.canvasWidth + s.avatarSize ∨
        player.y - s.viewport.2 < -s.avatarSize ∨
        player.y - s.viewport.2 > s.canvasHeight + s.avatarSize) →
      drawPlayer s player = none) ∧
    ((-s.avatarSize ≤ player.x - s.viewport.1 ∧
        player.x - s.viewport.1 ≤ s.canvasWidth + s.avatarSize ∧
        -s.avatarSize ≤ player.y - s.viewport.2 ∧
        player.y - s.viewport.2 ≤ s.canvasHeight + s.avatarSize) →
      (drawPlayer s player).isSome = true) := by
  obtain ⟨adef, hadef⟩ := Option.isSome_iff_exists.mp hdef
  constructor
  · intro hcull
    simp [drawPlayer, hadef, hav, hframe, hcull]
  · rintro ⟨hx1, hx2, hy1, hy2⟩
    have nx1 : ¬(player.x - s.viewport.1 < -s.avatarSize) := not_lt.mpr hx1
    have nx2 : ¬(player.x - s.viewport.1 > s.canvasWidth + s.avatarSize) :=
      not_lt.mpr hx2
    have ny1 : ¬(player.y - s.viewport.2 < -s.avatarSize) := not_lt.mpr hy1
    have ny2 : ¬(player.y - s.viewport.2 > s.canvasHeight + s.avatarSize) :=
      not_lt.mpr hy2
    simp [drawPlayer, hadef, hav, hframe, nx1, nx2, ny1, ny2]

/-- C6 witness: the sample player sitting exactly one avatar-size left
of the left edge (screen x = −64 = −avatarSize) is drawn. -/
theorem drawPlayer_cull_witness :
    selectFrame sampleLoadedEntry boundaryPlayer.facing
      (boundaryPlayer.animationFrame.getD 0) = some "s0.png" ∧
    ((-drawState.avatarSize ≤ boundaryPlayer.x - drawState.viewport.1 ∧
        boundaryPlayer.x - drawState.viewport.1
          ≤ drawState.canvasWidth + drawState.avatarSize ∧
        -drawState.avatarSize ≤ boundaryPlayer.y - drawState.viewport.2 ∧
        boundaryPlayer.y - drawState.viewport.2
          ≤ drawState.canvasHeight + drawState.avatarSize) →
      (drawPlayer drawState boundaryPlayer).isSome = true) :=
  ⟨rfl, (drawPlayer_cull drawState boundaryPlayer sampleLoadedEntry "s0.png"
    rfl rfl rfl).2⟩

/-- The directions array is empty exactly when no direction key is
held. -/
theorem directionsOf_nil_iff (keys : String → Bool) :
    directionsOf keys = [] ↔ dirHeld keys = false := by
  unfold directionsOf dirHeld
  cases h1 : keys "ArrowUp" <;> cases h2 : keys "ArrowDown" <;>
    cases h3 : keys "ArrowLeft" <;> cases h4 : keys "ArrowRight" <;> simp

/-- sendMovementCommand never changes the pressed-key set. -/
theorem sendMovementCommand_keys (st : InputState) :
    (sendMovementCommand st).1.keysPressed = st.keysPressed := by
  unfold sendMovementCommand
  rcases hd : directionsOf st.keysPressed with _ | ⟨d, rest⟩
  · by_cases hm : st.isMoving = true
    · simp [hm]
    · simp [hm]
  · rfl

/-- After sendMovementCommand, isMoving records exactly whether a
direction key is held. -/
theorem sendMovementCommand_isMoving (st : InputState) :
    (sendMovementCommand st).1.isMoving = dirHeld st.keysPressed := by
  unfold sendMovementCommand
  rcases hd : directionsOf st.keysPressed with _ | ⟨d, rest⟩
  · rw [(directionsOf_nil_iff st.keysPressed).mp hd]
    by_cases hm : st.isMoving = true
    · simp [hm]
    · simp [hm]
  · have : dirHeld st.keysPressed = true := by
      cases hdh : dirHeld st.keysPressed
      · rw [(directionsOf_nil_iff st.keysPressed).mpr hdh] at hd
        cases hd
      · rfl
    rw [this]

/-- sendMovementCommand emits the single stop message exactly when it
runs with isMoving set and no direction key held, and never emits stop
otherwise. -/
theorem sendMovementCommand_stop (st : InputState) :
    ((st.isMoving = true ∧ dirHeld st.keysPressed = false) →
      (sendMovementCommand st).2 = [OutMessage.stop]) ∧
    (¬(st.isMoving = true ∧ dirHeld st.keysPressed = false) →
      OutMessage.stop ∉ (sendMovementCommand st).2) := by
  unfold sendMovementCommand
  rcases hd : directionsOf st.keysPressed with _ | ⟨d, rest⟩
  · have hfalse : dirHeld st.keysPressed = false :=
      (directionsOf_nil_iff st.keysPressed).mp hd
    cases hm : st.isMoving
    · refine ⟨fun hc => absurd hc.1 (by decide), fun _ => by simp⟩
    · refine ⟨fun _ => by simp, fun hc => absurd ⟨rfl, hfalse⟩ hc⟩
  · have htrue : dirHeld st.keysPressed = true := by
      cases hdh : dirHeld st.keysPressed
      · rw [(directionsOf_nil_iff st.keysPressed).mpr hdh] at hd
        cases hd
      · rfl
    refine ⟨fun hc => ?_, fun _ => by simp⟩
    rw [htrue] at hc
    exact absurd hc.2 (by decide)

/-- After every key event, isMoving records exactly whether a direction
key is held. -/
theorem handleKeyEvent_inv (st : InputState) (e : KeyEvent) :
    (handleKeyEvent st e).1.isMoving
      = dirHeld (handleKeyEvent st e).1.keysPressed := by
  cases e with
  | down code =>
    dsimp only [handleKeyEvent]
    rw [sendMovementCommand_isMoving, sendMovementCommand_keys]
  | up code =>
    dsimp only [handleKeyEvent]
    rw [sendMovementCommand_isMoving, sendMovementCommand_keys]

/-- The isMoving/dirHeld agreement holds along any run. -/
theorem runKeys_inv :
    ∀ (es : List KeyEvent) (st : InputState),
      st.isMoving = dirHeld st.keysPressed →
      (runKeys st es).isMoving = dirHeld (runKeys st es).keysPressed
  | [], _, h => h
  | e :: es, st, _ => runKeys_inv es (handleKeyEvent st e).1 (handleKeyEvent_inv st e)

/-- Every reachable input state has isMoving equal to whether a
direction key is held. -/
theorem reachable_inv (st : InputState) (h : ReachableInput st) :
    st.isMoving = dirHeld st.keysPressed := by
  obtain ⟨es, hes⟩ := h
  rw [← hes]
  exact runKeys_inv es initInputState rfl

/-- The stop/move behaviour of one key event over arbitrary new key
state, assuming the isMoving/dirHeld agreement. -/
theorem movementStep_spec (st : InputState) (keys' : String → Bool)
    (hinv : st.isMoving = dirHeld st.keysPressed) :
    ((dirHeld st.keysPressed = true ∧
        dirHeld (sendMovementCommand { st with keysPressed := keys' }).1.keysPressed
          = false) →
      (sendMovementCommand { st with keysPressed := keys' }).2
        = [OutMessage.stop]) ∧
    (¬(dirHeld st.keysPressed = true ∧
        dirHeld (sendMovementCommand { st with keysPressed := keys' }).1.keysPressed
          = false) →
      OutMessage.stop ∉ (sendMovementCommand { st with keysPressed := keys' }).2) := by
  have hkeys := sendMovementCommand_keys { st with keysPressed := keys' }
  obtain ⟨hA, hB⟩ := sendMovementCommand_stop { st with keysPressed := keys' }
  constructor
  · rintro ⟨h1, h2⟩
    apply hA
    refine ⟨?_, ?_⟩
    · show st.isMoving = true
      rw [hinv]
      exact h1
    · rw [hkeys] at h2
      exact h2
  · intro hc
    apply hB
    rintro ⟨h1, h2⟩
    apply hc
    refine ⟨?_, ?_⟩
    · rw [← hinv]
      exact h1
    · rw [hkeys]
      exact h2

/-- C7: in any state reachable by a sequence of key events, a key event
produces the outbound stop message — and produces it exactly once, as
the sole message of that step — precisely on a transition of the
held-direction-key set from non-empty to empty; at any other step
(including a key-up that leaves a direction key held) no stop is sent. -/
theorem stop_sent_on_transition (st : InputState) (e : KeyEvent)
    (hreach : ReachableInput st) :
    ((dirHeld st.keysPressed = true ∧
        dirHeld (handleKeyEvent st e).1.keysPressed = false) →
      (handleKeyEvent st e).2 = [OutMessage.stop]) ∧
    (¬(dirHeld st.keysPressed = true ∧
        dirHeld (handleKeyEvent st e).1.keysPressed = false) →
      OutMessage.stop ∉ (handleKeyEvent st e).2) := by
  have hinv := reachable_inv st hreach
  cases e with
  | down code => exact movementStep_spec st _ hinv
  | up code => exact movementStep_spec st _ hinv

/-- C7 witness: from the reachable state with ArrowUp held, releasing
ArrowUp sends exactly the one stop message. -/
theorem stop_sent_on_transition_witness :
    ReachableInput c7State ∧
    (((dirHeld c7State.keysPressed = true ∧
        dirHeld (handleKeyEvent c7State (KeyEvent.up "ArrowUp")).1.keysPressed
          = false) →
      (handleKeyEvent c7State (KeyEvent.up "ArrowUp")).2 = [OutMessage.stop]) ∧
    (¬(dirHeld c7State.keysPressed = true ∧
        dirHeld (handleKeyEvent c7State (KeyEvent.up "ArrowUp")).1.keysPressed
          = false) →
      OutMessage.stop ∉ (handleKeyEvent c7State (KeyEvent.up "ArrowUp")).2)) :=
  ⟨⟨[KeyEvent.down "ArrowUp"], rfl⟩,
   stop_sent_on_transition c7State (KeyEvent.up "ArrowUp")
     ⟨[KeyEvent.down "ArrowUp"], rfl⟩⟩
